import Mathlib

/-! BrowserToolbarGtk: upgrade reminder throb, notifications and toolbar background

A shallow embedding of `chrome/browser/gtk/browser_toolbar_gtk.cc`.

* The member variables the handlers read and write are the fields of
  `BrowserToolbarGtk`.
* What the collaborators answer during one handler call (the window, the theme
  provider, the upgrade detector, the timer-driven readings of the animation)
  is an `Env`.
* Calls that leave the toolbar (GTK, cairo, canvas, logging) are recorded, in
  program order, as a list of `Effect`.
* `int` and `gint` values are `Int`, and every addition and subtraction the
  source does on them is wrapped to 32 bits (`add32`, `sub32`, `wrapInt32`);
  `UpgradeAnimationIsFadedChecked` evaluates its subtraction with overflow as
  an error instead.
-/

namespace ToolbarGtk

/-! ## Constants of the anonymous namespace (lines 58-82) -/

/-- Height of the toolbar in pixels (not counting padding). -/
def kToolbarHeight : Int := 29

/-- Padding within the toolbar above the buttons and location bar. -/
def kTopPadding : Int := 4

/-- Height of the toolbar in pixels when only the location bar is shown. -/
def kToolbarHeightLocationBarOnly : Int := kToolbarHeight - 2

/-- Interior spacing between toolbar widgets. -/
def kToolbarWidgetSpacing : Int := 2

/-- Amount of rounding on top corners of toolbar. Only used in Gtk theme mode. -/
def kToolbarCornerSize : Int := 3

/-- The offset in pixels of the upgrade dot on the app menu. -/
def kUpgradeDotOffset : Int := 11

/-- The duration of a half-throb of the upgrade notification animation. -/
def kThrobDuration : Int := 1000

/-- The horizontal size of the top left and right corner images
(local constant of `OnAlignmentExpose`). -/
def kCornerWidth : Int := 4

/-- The thickness of the shadow outside the toolbar's bounds
(local constant of `OnAlignmentExpose`). -/
def kShadowThickness : Int := 2

/-! ## Machine integers -/

/-- Smallest value of a 32-bit `int`. -/
def INT_MIN : Int := -2147483648

/-- Largest value of a 32-bit `int`. -/
def INT_MAX : Int := 2147483647

/-- Two's complement wrap of a mathematical integer into the 32-bit `int` range. -/
def wrapInt32 (n : Int) : Int := (n + 2147483648) % 4294967296 - 2147483648

/-- Addition on `int` / `gint`, wrapped to 32 bits. -/
def add32 (a b : Int) : Int := wrapInt32 (a + b)

/-- Subtraction on `int` / `gint`, wrapped to 32 bits. -/
def sub32 (a b : Int) : Int := wrapInt32 (a - b)

/-- Whether a mathematical integer is a value of a 32-bit `int`, so that an
operation with this result does not overflow. -/
def fitsInt32 (n : Int) : Bool := decide (INT_MIN ≤ n) && decide (n ≤ INT_MAX)

/-! ## Plain data -/

/-- The fields of a `gfx::Rect` / `GdkRectangle`. -/
structure Rect where
  x : Int
  y : Int
  width : Int
  height : Int
deriving DecidableEq, Repr

/-- The fields of a `gfx::Point`. -/
structure Point where
  x : Int
  y : Int
deriving DecidableEq, Repr

/-- The channels of a `GdkColor`. -/
structure GdkColor where
  red : Nat
  green : Nat
  blue : Nat
deriving DecidableEq, Repr

/-- An `SkBitmap` as far as the toolbar looks at it: its size and its pixels. -/
structure SkBitmap where
  width : Int
  height : Int
  pixels : List Nat
deriving DecidableEq, Repr

/-- The two members of `gfx::Rect` that `OnAlignmentExpose` calls. Their bodies
(gfx/rect.cc) are not among the sources, so the handlers take them as a
parameter. -/
structure RectOps where
  Subtract : Rect → Rect → Rect
  Intersects : Rect → Rect → Bool

/-- Modelled from the spec: `ThrobAnimation` (app/throb_animation.h) is not among
the sources. The spec gives the scheduler two outcomes, "starts an unbounded
repeating throb" and "resets state to idle"; the model keeps exactly that:
the animation is idle, or it is throbbing with the cycle count that was passed
to `StartThrobbing`. The remaining-cycle counter and the interpolation value
advance with the timer and are read from `Env` at each call. -/
inductive ThrobAnimation where
  | idle
  | throbbing (cycles_til_stop : Int)
deriving DecidableEq, Repr

/-- Modelled from the spec: `is_animating()` holds while a throb is running. -/
def ThrobAnimation.is_animating : ThrobAnimation → Bool
  | .idle => false
  | .throbbing _ => true

/-- Modelled from the spec: `StartThrobbing(cycles_til_stop)` starts a throb. -/
def ThrobAnimation.StartThrobbing (_a : ThrobAnimation) (cycles_til_stop : Int) :
    ThrobAnimation :=
  .throbbing cycles_til_stop

/-- Modelled from the spec: `Reset()` "resets state to idle". -/
def ThrobAnimation.Reset (_a : ThrobAnimation) : ThrobAnimation :=
  .idle

/-- The values of `NotificationType` (chrome/common/notification_type.h, not
among the sources) that `Observe` tests for, and all the others. -/
inductive NotificationType where
  | PREF_CHANGED
  | BROWSER_THEME_CHANGED
  | UPGRADE_RECOMMENDED
  | other (code : Nat)
deriving DecidableEq, Repr

/-- The widgets the handlers act on. -/
inductive Widget where
  | alignment_
  | event_box_
  | toolbar_left_
  | toolbar_right_
  | location_hbox_
  | home_
  | app_menu_button_
  | app_menu_image_
deriving DecidableEq, Repr

/-- The two cairo contexts of `OnAlignmentExpose`: the one of the widget's
window and the one of the temporary mask surface. -/
inductive Cairo where
  | cr
  | copy_cr
deriving DecidableEq, Repr

/-- The theme surfaces `OnAlignmentExpose` asks the theme provider for. -/
inductive Surface where
  | IDR_THEME_TOOLBAR
  | IDR_CONTENT_TOP_LEFT_CORNER_MASK
  | IDR_CONTENT_TOP_RIGHT_CORNER_MASK
deriving DecidableEq, Repr

/-- The cairo operators `OnAlignmentExpose` sets. -/
inductive Operator where
  | CAIRO_OPERATOR_SOURCE
  | CAIRO_OPERATOR_IN
deriving DecidableEq, Repr

/-- The drag targets of app/gtk_dnd_util.h that the toolbar names, and the rest. -/
inductive DndTarget where
  | TEXT_PLAIN
  | TEXT_URI_LIST
  | other (code : Nat)
deriving DecidableEq, Repr

/-- Calls that leave the toolbar, one constructor per callee. -/
inductive Effect where
  | NOTREACHED
  | NOTIMPLEMENTED
  | gtk_widget_queue_draw (w : Widget)
  | gtk_widget_show (w : Widget)
  | gtk_widget_hide (w : Widget)
  | gtk_container_set_border_width (w : Widget) (border : Int)
  | gtk_image_set_from_pixbuf_IDR_TOOLS (w : Widget)
  | gtk_widget_set_size_request (w : Widget) (width height : Int)
  | gtk_event_box_set_visible_window (w : Widget) (visible : Bool)
  | ActAsRoundedWindow (w : Widget) (corner_size : Int)
  | StopActingAsRoundedWindow (w : Widget)
  | gtk_drag_dest_set (w : Widget)
  | SetDestTargetList (w : Widget) (targets : List DndTarget)
  | drop_handler_Connect (w : Widget)
  | gtk_drag_dest_unset (w : Widget)
  | home_page_SetValue (value : String)
  | home_page_is_new_tab_page_SetValue (value : Bool)
  | gdk_cairo_create
  | gdk_cairo_rectangle (c : Cairo) (area : Rect)
  | cairo_clip (c : Cairo)
  | gdk_cairo_set_source_color (c : Cairo) (color : GdkColor)
  | cairo_fill (c : Cairo)
  | SetSource (s : Surface) (c : Cairo) (x y : Int)
  | cairo_pattern_set_extend_REPEAT (c : Cairo)
  | cairo_rectangle (c : Cairo) (x y width height : Int)
  | cairo_surface_create_similar (width height : Int)
  | cairo_create_target
  | cairo_set_operator (c : Cairo) (op : Operator)
  | cairo_paint (c : Cairo)
  | cairo_set_source_surface_target (c : Cairo) (x y : Int)
  | cairo_surface_destroy_target
  | cairo_destroy (c : Cairo)
  | DrawBitmapInt (badge : SkBitmap) (x y : Int)
deriving DecidableEq, Repr

/-- What the collaborators of the toolbar answer during one handler call. -/
structure Env where
  /-- Answer of `window_->IsActive()`. -/
  window_IsActive : Bool
  /-- Answer of `Singleton<UpgradeDetector>::get()->notify_upgrade()`. -/
  notify_upgrade : Bool
  /-- Answer of `theme_provider_->UseGtkTheme()`. -/
  UseGtkTheme : Bool
  /-- Answer of `window_->ShouldDrawContentDropShadow()`. -/
  ShouldDrawContentDropShadow : Bool
  /-- Answer of `base::i18n::IsRTL()`. -/
  IsRTL : Bool
  /-- Whether `browser_->type()` is `Browser::TYPE_NORMAL`. -/
  browser_type_is_normal : Bool
  /-- Answer of `home_page_.IsManaged()`. -/
  home_page_IsManaged : Bool
  /-- Answer of `home_page_is_new_tab_page_.IsManaged()`. -/
  home_page_is_new_tab_page_IsManaged : Bool
  /-- Answer of `upgrade_reminder_animation_.cycles_remaining()`. -/
  cycles_remaining : Int
  /-- Answer of `upgrade_reminder_animation_.GetCurrentValue()`. -/
  GetCurrentValue : ℚ
  /-- Answer of `window_->tabstrip()->GetTabStripOriginForWidget(widget)`. -/
  tabstrip_origin : Point
  /-- Answer of `theme_provider_->GetGdkColor(COLOR_TOOLBAR)`. -/
  COLOR_TOOLBAR : GdkColor
  /-- Answer of `theme_provider_->GetBitmapNamed(IDR_UPGRADE_DOT_ACTIVE)`. -/
  IDR_UPGRADE_DOT_ACTIVE : SkBitmap
  /-- Answer of `theme_provider_->GetBitmapNamed(IDR_UPGRADE_DOT_INACTIVE)`. -/
  IDR_UPGRADE_DOT_INACTIVE : SkBitmap
  /-- The function `SkBitmapOperations::CreateBlendedBitmap`
  (gfx/skbitmap_operations.cc, not among the sources). -/
  CreateBlendedBitmap : SkBitmap → SkBitmap → ℚ → SkBitmap
  /-- Value of `prefs::kShowHomeButton`. -/
  kShowHomeButton : String
  /-- Value of `prefs::kHomePage`. -/
  kHomePage : String
  /-- Value of `prefs::kHomePageIsNewTabPage`. -/
  kHomePageIsNewTabPage : String
  /-- Value of `chrome::kChromeUINewTabURL`. -/
  kChromeUINewTabURL : String

/-- The member variables of `BrowserToolbarGtk` that the handlers below read or
write. `alignment_rounded` is the rounded-window state that
`gtk_util::ActAsRoundedWindow` attaches to `alignment_`. -/
structure BrowserToolbarGtk where
  upgrade_reminder_animation_ : ThrobAnimation
  upgrade_reminder_canceled_ : Bool
  alignment_rounded : Bool
  drop_handler_set : Bool
  show_home_button_ : Bool
  home_page_ : String
  home_page_is_new_tab_page_ : Bool
deriving DecidableEq, Repr

/-! ## The upgrade reminder (lines 676-716, 746-751) -/

/-- Embedding of `BrowserToolbarGtk::UpgradeAnimationIsFaded` (lines 746-751), as a
function of what `cycles_remaining()` answers. `/` and `%` on `int`
truncate toward zero. -/
def UpgradeAnimationIsFaded (cycles_remaining : Int) : Bool :=
  decide (cycles_remaining > 0) &&
    (Int.tmod (Int.tdiv (wrapInt32 (cycles_remaining - 1)) 2) 4 == 0)

/-- Embedding of `BrowserToolbarGtk::MaybeShowUpgradeReminder` (lines 676-685). -/
def MaybeShowUpgradeReminder (env : Env) (t : BrowserToolbarGtk) : BrowserToolbarGtk :=
  if env.window_IsActive && env.notify_upgrade && !t.upgrade_reminder_canceled_ then
    { t with upgrade_reminder_animation_ :=
        t.upgrade_reminder_animation_.StartThrobbing (-1) }
  else
    { t with upgrade_reminder_animation_ := t.upgrade_reminder_animation_.Reset }

/-- Embedding of `BrowserToolbarGtk::ShouldOnlyShowLocation` (lines 687-690). -/
def ShouldOnlyShowLocation (env : Env) : Bool :=
  !env.browser_type_is_normal

/-- Embedding of `BrowserToolbarGtk::AnimationEnded` (lines 692-695). -/
def AnimationEnded : List Effect :=
  [Effect.gtk_widget_queue_draw Widget.app_menu_image_]

/-- Embedding of `BrowserToolbarGtk::AnimationProgressed` (lines 697-701). -/
def AnimationProgressed (env : Env) : List Effect :=
  if UpgradeAnimationIsFaded env.cycles_remaining then
    [Effect.gtk_widget_queue_draw Widget.app_menu_image_]
  else
    []

/-- Embedding of `BrowserToolbarGtk::AnimationCanceled` (lines 703-705). -/
def AnimationCanceled : List Effect :=
  AnimationEnded

/-- Embedding of `BrowserToolbarGtk::ActiveWindowChanged` (lines 707-709). -/
def ActiveWindowChanged (env : Env) (t : BrowserToolbarGtk) : BrowserToolbarGtk :=
  MaybeShowUpgradeReminder env t

/-- Embedding of `BrowserToolbarGtk::OnAppMenuShow` (lines 711-716). -/
def OnAppMenuShow (env : Env) (t : BrowserToolbarGtk) : BrowserToolbarGtk :=
  if t.upgrade_reminder_animation_.is_animating then
    MaybeShowUpgradeReminder env { t with upgrade_reminder_canceled_ := true }
  else
    t

/-- The local variable `badge` of `OnAppMenuImageExpose` (lines 723-731). -/
def upgradeBadge (env : Env) : SkBitmap :=
  if UpgradeAnimationIsFaded env.cycles_remaining then
    env.CreateBlendedBitmap env.IDR_UPGRADE_DOT_ACTIVE env.IDR_UPGRADE_DOT_INACTIVE
      env.GetCurrentValue
  else
    env.IDR_UPGRADE_DOT_INACTIVE

/-- The local variable `x_offset` of `OnAppMenuImageExpose` (lines 735-737). -/
def upgradeBadgeXOffset (env : Env) (allocation : Rect) (badge : SkBitmap) : Int :=
  if env.IsRTL then sub32 (sub32 allocation.width kUpgradeDotOffset) badge.width
  else kUpgradeDotOffset

/-- Embedding of `BrowserToolbarGtk::OnAppMenuImageExpose` (lines 718-744):
the `gboolean` it returns and what it draws, for the allocation of `sender`.
The `gfx::CanvasSkiaPaint` of line 734 is the canvas `DrawBitmapInt` draws on. -/
def OnAppMenuImageExpose (env : Env) (allocation : Rect) : Bool × List Effect :=
  if !env.notify_upgrade then
    (false, [])
  else
    let badge := upgradeBadge env
    let x_offset := upgradeBadgeXOffset env allocation badge
    (false,
      [Effect.DrawBitmapInt badge (add32 allocation.x x_offset)
        (sub32 (add32 allocation.y allocation.height) badge.height)])

/-! ## Preferences and notifications (lines 368-407, 462-477, 642-674) -/

/-- Embedding of `BrowserToolbarGtk::SetUpDragForHomeButton` (lines 462-477). -/
def SetUpDragForHomeButton (enable : Bool) (t : BrowserToolbarGtk) :
    BrowserToolbarGtk × List Effect :=
  if enable then
    ({ t with drop_handler_set := true },
      [Effect.gtk_drag_dest_set Widget.home_,
       Effect.SetDestTargetList Widget.home_ [DndTarget.TEXT_PLAIN, DndTarget.TEXT_URI_LIST],
       Effect.drop_handler_Connect Widget.home_])
  else
    ({ t with drop_handler_set := false }, [Effect.gtk_drag_dest_unset Widget.home_])

/-- Embedding of `BrowserToolbarGtk::NotifyPrefChanged` (lines 660-674); `pref` is
`none` for a null pointer. -/
def NotifyPrefChanged (env : Env) (pref : Option String) (t : BrowserToolbarGtk) :
    BrowserToolbarGtk × List Effect :=
  let fx1 : List Effect :=
    if pref.isNone || pref == some env.kShowHomeButton then
      if t.show_home_button_ && !ShouldOnlyShowLocation env then
        [Effect.gtk_widget_show Widget.home_]
      else
        [Effect.gtk_widget_hide Widget.home_]
    else
      []
  if pref.isNone || pref == some env.kHomePage ||
      pref == some env.kHomePageIsNewTabPage then
    let r := SetUpDragForHomeButton
      (!env.home_page_IsManaged && !env.home_page_is_new_tab_page_IsManaged) t
    (r.1, fx1 ++ r.2)
  else
    (t, fx1)

/-- Modelled from the spec: `gtk_util::IsActingAsRoundedWindow`
(chrome/browser/gtk/rounded_window.h) is not among the sources and the spec
only names the "rounded-corner presentation mode"; the model reads the
rounded-window state of `alignment_`. -/
def IsActingAsRoundedWindow (t : BrowserToolbarGtk) : Bool :=
  t.alignment_rounded

/-- Modelled from the spec: `gtk_util::ActAsRoundedWindow` is not among the
sources; the model records the call and puts `alignment_` in the rounded
state. -/
def ActAsRoundedWindow (corner_size : Int) (t : BrowserToolbarGtk) :
    BrowserToolbarGtk × List Effect :=
  ({ t with alignment_rounded := true },
    [Effect.ActAsRoundedWindow Widget.alignment_ corner_size])

/-- Modelled from the spec: `gtk_util::StopActingAsRoundedWindow` is not among
the sources; the model records the call and takes `alignment_` out of the
rounded state. -/
def StopActingAsRoundedWindow (t : BrowserToolbarGtk) : BrowserToolbarGtk × List Effect :=
  ({ t with alignment_rounded := false },
    [Effect.StopActingAsRoundedWindow Widget.alignment_])

/-- Embedding of `BrowserToolbarGtk::UpdateRoundedness` (lines 479-498): the `bool`
it returns, the toolbar afterwards and the calls it makes. -/
def UpdateRoundedness (env : Env) (t : BrowserToolbarGtk) :
    Bool × BrowserToolbarGtk × List Effect :=
  let should_be_rounded := env.UseGtkTheme && env.ShouldDrawContentDropShadow
  if should_be_rounded == IsActingAsRoundedWindow t then
    (false, t, [])
  else if should_be_rounded then
    (true, ActAsRoundedWindow kToolbarCornerSize t)
  else
    (true, StopActingAsRoundedWindow t)

/-- Embedding of `BrowserToolbarGtk::Observe` (lines 368-407); `details` is what
`Details<std::wstring>(details).ptr()` points to. -/
def Observe (env : Env) (type : NotificationType) (details : Option String)
    (t : BrowserToolbarGtk) : BrowserToolbarGtk × List Effect :=
  match type with
  | NotificationType.PREF_CHANGED => NotifyPrefChanged env details t
  | NotificationType.BROWSER_THEME_CHANGED =>
    let use_gtk := env.UseGtkTheme
    let border : Int := if use_gtk then 0 else 2
    let toolbar_height : Int :=
      if ShouldOnlyShowLocation env then kToolbarHeightLocationBarOnly else kToolbarHeight
    let r := UpdateRoundedness env t
    (r.2.1,
      [Effect.gtk_container_set_border_width Widget.app_menu_button_ border,
       Effect.gtk_image_set_from_pixbuf_IDR_TOOLS Widget.app_menu_image_,
       Effect.gtk_widget_set_size_request Widget.toolbar_left_ (-1) toolbar_height,
       Effect.gtk_widget_set_size_request Widget.toolbar_right_ (-1) toolbar_height,
       Effect.gtk_widget_set_size_request Widget.location_hbox_ (-1)
         (if use_gtk then -1 else toolbar_height),
       Effect.gtk_event_box_set_visible_window Widget.event_box_ use_gtk] ++ r.2.2)
  | NotificationType.UPGRADE_RECOMMENDED => (MaybeShowUpgradeReminder env t, [])
  | NotificationType.other _ => (t, [Effect.NOTREACHED])

/-- Embedding of `BrowserToolbarGtk::OnDragDataReceived` (lines 642-658); `GURL` is
not among the sources, so the handler takes what `url.is_valid()` and
`url.spec()` answer for the dropped data. Each `SetValue` on a preference
member is recorded as a call and stores the value in the member. -/
def OnDragDataReceived (env : Env) (info : DndTarget) (url_is_valid : Bool)
    (url_spec : String) (t : BrowserToolbarGtk) : BrowserToolbarGtk × List Effect :=
  if info != DndTarget.TEXT_PLAIN then
    (t, [Effect.NOTIMPLEMENTED])
  else if !url_is_valid then
    (t, [])
  else
    let url_is_newtab := url_spec == env.kChromeUINewTabURL
    let t1 := { t with home_page_is_new_tab_page_ := url_is_newtab }
    if !url_is_newtab then
      ({ t1 with home_page_ := url_spec },
        [Effect.home_page_is_new_tab_page_SetValue url_is_newtab,
         Effect.home_page_SetValue url_spec])
    else
      (t1, [Effect.home_page_is_new_tab_page_SetValue url_is_newtab])

/-! ## The toolbar background (lines 500-605) -/

/-- The local variable `right` of `OnAlignmentExpose` (lines 530-534). -/
def rightCorner (allocation : Rect) : Rect :=
  { x := sub32 (add32 allocation.x allocation.width) kCornerWidth,
    y := sub32 allocation.y kShadowThickness,
    width := kCornerWidth,
    height := add32 allocation.height kShadowThickness }

/-- The local variable `left` of `OnAlignmentExpose` (lines 535-538). -/
def leftCorner (allocation : Rect) : Rect :=
  { x := sub32 allocation.x kShadowThickness,
    y := sub32 allocation.y kShadowThickness,
    width := kCornerWidth,
    height := add32 allocation.height kShadowThickness }

/-- The calls of lines 561-600 of `OnAlignmentExpose`: building the corner mask
on a temporary surface and copying it to the screen. -/
def drawCornerMask (env : Env) (allocation : Rect) (draw_left_corner draw_right_corner : Bool) :
    List Effect :=
  let left := leftCorner allocation
  let right := rightCorner allocation
  [Effect.cairo_surface_create_similar (add32 allocation.x allocation.width)
     (add32 allocation.y allocation.height),
   Effect.cairo_create_target,
   Effect.cairo_set_operator Cairo.copy_cr Operator.CAIRO_OPERATOR_SOURCE] ++
  (if draw_left_corner then
    [Effect.SetSource Surface.IDR_CONTENT_TOP_LEFT_CORNER_MASK Cairo.copy_cr left.x left.y,
     Effect.cairo_paint Cairo.copy_cr]
   else []) ++
  (if draw_right_corner then
    [Effect.SetSource Surface.IDR_CONTENT_TOP_RIGHT_CORNER_MASK Cairo.copy_cr right.x right.y,
     Effect.cairo_rectangle Cairo.copy_cr right.x right.y right.width right.height,
     Effect.cairo_fill Cairo.copy_cr]
   else []) ++
  [Effect.SetSource Surface.IDR_THEME_TOOLBAR Cairo.copy_cr
     env.tabstrip_origin.x env.tabstrip_origin.y,
   Effect.cairo_set_operator Cairo.copy_cr Operator.CAIRO_OPERATOR_IN,
   Effect.cairo_pattern_set_extend_REPEAT Cairo.copy_cr,
   Effect.cairo_paint Cairo.copy_cr,
   Effect.cairo_destroy Cairo.copy_cr,
   Effect.cairo_set_source_surface_target Cairo.cr 0 0,
   Effect.cairo_paint Cairo.cr,
   Effect.cairo_surface_destroy_target]

/-- Embedding of `BrowserToolbarGtk::OnAlignmentExpose` (lines 500-605) for a
widget with the given allocation and an expose event with area `e_area`: the
`gboolean` it returns, the toolbar afterwards and the calls it makes. -/
def OnAlignmentExpose (ops : RectOps) (env : Env) (allocation e_area : Rect)
    (t : BrowserToolbarGtk) : Bool × BrowserToolbarGtk × List Effect :=
  let u := UpdateRoundedness env t
  if u.1 then
    (true, u.2.1, u.2.2)
  else if env.UseGtkTheme then
    (false, u.2.1, u.2.2)
  else
    let right := rightCorner allocation
    let left := leftCorner allocation
    let area :=
      if env.ShouldDrawContentDropShadow then ops.Subtract (ops.Subtract e_area right) left
      else e_area
    let fill : List Effect :=
      [Effect.gdk_cairo_create,
       Effect.gdk_cairo_rectangle Cairo.cr e_area,
       Effect.cairo_clip Cairo.cr,
       Effect.gdk_cairo_set_source_color Cairo.cr env.COLOR_TOOLBAR,
       Effect.cairo_fill Cairo.cr,
       Effect.SetSource Surface.IDR_THEME_TOOLBAR Cairo.cr
         env.tabstrip_origin.x env.tabstrip_origin.y,
       Effect.cairo_pattern_set_extend_REPEAT Cairo.cr,
       Effect.cairo_rectangle Cairo.cr area.x area.y area.width area.height,
       Effect.cairo_fill Cairo.cr]
    if !env.ShouldDrawContentDropShadow then
      (false, u.2.1, u.2.2 ++ fill ++ [Effect.cairo_destroy Cairo.cr])
    else
      let draw_left_corner := ops.Intersects left e_area
      let draw_right_corner := ops.Intersects right e_area
      let corners : List Effect :=
        if draw_left_corner || draw_right_corner then
          drawCornerMask env allocation draw_left_corner draw_right_corner
        else
          []
      (false, u.2.1, u.2.2 ++ fill ++ corners ++ [Effect.cairo_destroy Cairo.cr])

/-! ## Evaluation of `UpgradeAnimationIsFaded` with overflow as an error -/

/-- Subtraction on `int` as C++ defines it: the result when it fits in 32 bits,
and no result when it does not (signed overflow is undefined). -/
def checkedSub32 (a b : Int) : Option Int :=
  if INT_MIN ≤ a - b ∧ a - b ≤ INT_MAX then some (a - b) else none

/-- Embedding of `BrowserToolbarGtk::UpgradeAnimationIsFaded` (lines 746-751) with
the evaluation order of `&&` spelled out: the right operand, and with it the
subtraction, is evaluated only when `cycles_remaining() > 0`; the answer is
`none` if an evaluated subtraction overflows. Dividing by 2 and taking the
remainder by 4 cannot overflow. -/
def UpgradeAnimationIsFadedChecked (cycles_remaining : Int) : Option Bool :=
  if cycles_remaining > 0 then
    (checkedSub32 cycles_remaining 1).map (fun d => Int.tmod (Int.tdiv d 2) 4 == 0)
  else
    some false

/-! ## Pixels of the corner rectangles -/

/-- Whether the pixel at column `px` and row `py` lies in the rectangle, which
covers the columns from `x` up to but not including `x + width` and the rows
from `y` up to but not including `y + height` (what filling
`cairo_rectangle(x, y, width, height)` paints). Cairo takes the four values as
doubles, so the two sums here are sums on the pixel grid, not 32-bit sums. -/
def Rect.containsPixel (r : Rect) (px py : Int) : Bool :=
  decide (r.x ≤ px) && decide (px < r.x + r.width) &&
    decide (r.y ≤ py) && decide (py < r.y + r.height)

/-- Two rectangles are disjoint when no pixel lies in both. -/
def Rect.disjoint (a b : Rect) : Prop :=
  ∀ px py : Int, ¬ (a.containsPixel px py = true ∧ b.containsPixel px py = true)

/-! ## The lifetime of a toolbar -/

/-- Embedding of the constructor `BrowserToolbarGtk::BrowserToolbarGtk`
(lines 86-112) on the modelled members: the animation is constructed (not
running), `upgrade_reminder_canceled_` is false, and the body ends with
`MaybeShowUpgradeReminder()`. `alignment_` and `drop_handler_` do not exist
yet; the three preference members get the values of the profile's
preferences, passed in. -/
def BrowserToolbarGtk.BrowserToolbarGtk (env : Env) (show_home_button : Bool)
    (home_page : String) (home_page_is_new_tab_page : Bool) : BrowserToolbarGtk :=
  MaybeShowUpgradeReminder env
    { upgrade_reminder_animation_ := ThrobAnimation.idle,
      upgrade_reminder_canceled_ := false,
      alignment_rounded := false,
      drop_handler_set := false,
      show_home_button_ := show_home_button,
      home_page_ := home_page,
      home_page_is_new_tab_page_ := home_page_is_new_tab_page }

/-- The callbacks through which the toolbar is driven after construction, with
their arguments. -/
inductive Event where
  | ActiveWindowChanged
  | Observe (type : NotificationType) (details : Option String)
  | AnimationEnded
  | AnimationProgressed
  | AnimationCanceled
  | OnAppMenuShow
  | OnAppMenuImageExpose (allocation : Rect)
  | OnAlignmentExpose (allocation e_area : Rect)
  | OnDragDataReceived (info : DndTarget) (url_is_valid : Bool) (url_spec : String)
deriving DecidableEq, Repr

/-- The toolbar after one callback, in the environment of that call. The
animation callbacks and `OnAppMenuImageExpose` only make calls and leave the
members as they are. -/
def handle (ops : RectOps) (env : Env) (ev : Event) (t : BrowserToolbarGtk) :
    BrowserToolbarGtk :=
  match ev with
  | Event.ActiveWindowChanged => ActiveWindowChanged env t
  | Event.Observe type details => (Observe env type details t).1
  | Event.AnimationEnded => t
  | Event.AnimationProgressed => t
  | Event.AnimationCanceled => t
  | Event.OnAppMenuShow => OnAppMenuShow env t
  | Event.OnAppMenuImageExpose _ => t
  | Event.OnAlignmentExpose allocation e_area =>
    (OnAlignmentExpose ops env allocation e_area t).2.1
  | Event.OnDragDataReceived info url_is_valid url_spec =>
    (OnDragDataReceived env info url_is_valid url_spec t).1

/-- The toolbar after a sequence of callbacks, each with its own environment. -/
def run (ops : RectOps) : List (Env × Event) → BrowserToolbarGtk → BrowserToolbarGtk
  | [], t => t
  | (env, ev) :: rest, t => run ops rest (handle ops env ev t)

/-! ## Concrete inputs used to evaluate the handlers -/

/-- An implementation of the two `gfx::Rect` members with half-open rectangles:
`Intersects` as overlap of the two spans, `Subtract` cutting off the part of
the first rectangle that the second covers across its full height or width. -/
def sampleRectOps : RectOps where
  Intersects a b :=
    !(decide (b.x ≥ a.x + a.width) || decide (b.x + b.width ≤ a.x) ||
      decide (b.y ≥ a.y + a.height) || decide (b.y + b.height ≤ a.y))
  Subtract a b :=
    if decide (b.x ≥ a.x + a.width) || decide (b.x + b.width ≤ a.x) ||
        decide (b.y ≥ a.y + a.height) || decide (b.y + b.height ≤ a.y) then a
    else if decide (b.y ≤ a.y) && decide (b.y + b.height ≥ a.y + a.height) then
      if decide (b.x ≤ a.x) then
        { a with x := b.x + b.width, width := a.x + a.width - (b.x + b.width) }
      else
        { a with width := b.x - a.x }
    else a

/-- A one-pixel bitmap of the given value. -/
def sampleDot (v : Nat) : SkBitmap :=
  { width := 1, height := 1, pixels := [v] }

/-- An environment: active window, update available, Chromium theme, no drop
shadow, left-to-right, normal browser, nine cycles remaining. -/
def sampleEnv : Env where
  window_IsActive := true
  notify_upgrade := true
  UseGtkTheme := false
  ShouldDrawContentDropShadow := false
  IsRTL := false
  browser_type_is_normal := true
  home_page_IsManaged := false
  home_page_is_new_tab_page_IsManaged := false
  cycles_remaining := 9
  GetCurrentValue := 0
  tabstrip_origin := { x := 0, y := 0 }
  COLOR_TOOLBAR := { red := 0, green := 0, blue := 0 }
  IDR_UPGRADE_DOT_ACTIVE := sampleDot 1
  IDR_UPGRADE_DOT_INACTIVE := sampleDot 0
  CreateBlendedBitmap := fun a _ _ => a
  kShowHomeButton := "browser.show_home_button"
  kHomePage := "homepage"
  kHomePageIsNewTabPage := "homepage_is_newtabpage"
  kChromeUINewTabURL := "chrome://newtab/"

/-- The toolbar as the constructor leaves the modelled members when no throb is
started (lines 86-95): animation idle, reminder not cancelled. -/
def sampleToolbar : BrowserToolbarGtk where
  upgrade_reminder_animation_ := ThrobAnimation.idle
  upgrade_reminder_canceled_ := false
  alignment_rounded := false
  drop_handler_set := false
  show_home_button_ := true
  home_page_ := ""
  home_page_is_new_tab_page_ := true

/-- The toolbar with a running unbounded throb. -/
def throbbingToolbar : BrowserToolbarGtk :=
  { sampleToolbar with upgrade_reminder_animation_ := ThrobAnimation.throbbing (-1) }

/-- The toolbar after the reminder was dismissed. -/
def dismissedToolbar : BrowserToolbarGtk :=
  { sampleToolbar with upgrade_reminder_canceled_ := true }

/-- The sample environment in GTK theme mode with the content drop shadow on. -/
def gtkShadowEnv : Env :=
  { sampleEnv with UseGtkTheme := true, ShouldDrawContentDropShadow := true }

/-- A widget allocation of 100 by 29 pixels at the origin. -/
def sampleAllocation : Rect :=
  { x := 0, y := 0, width := 100, height := 29 }

/-- Whether a call belongs to the corner-mask compositing of lines 561-600:
every call on the temporary surface or its context, and the copy of that
surface to the screen. -/
def Effect.isCornerMaskCall : Effect → Bool
  | .SetSource _ c _ _ => c == Cairo.copy_cr
  | .cairo_surface_create_similar _ _ => true
  | .cairo_create_target => true
  | .cairo_set_operator c _ => c == Cairo.copy_cr
  | .cairo_paint _ => true
  | .cairo_rectangle c _ _ _ _ => c == Cairo.copy_cr
  | .cairo_fill c => c == Cairo.copy_cr
  | .cairo_pattern_set_extend_REPEAT c => c == Cairo.copy_cr
  | .cairo_set_source_surface_target _ _ _ => true
  | .cairo_surface_destroy_target => true
  | .cairo_destroy c => c == Cairo.copy_cr
  | _ => false

/-! ## Theorems -/

/-- C1: for every remaining-cycle count c with 1 <= c <= 64,
`UpgradeAnimationIsFaded` is true exactly when c is one of
1,2,9,10,17,18,25,26,33,34,41,42,49,50,57,58, which is exactly when c mod 8 is
1 or 2, and its value equals `c > 0 && ((c-1)/2) % 4 == 0` computed with
integer division on unbounded integers. -/
theorem C1_faded_cadence (c : Int) (h1 : 1 ≤ c) (h64 : c ≤ 64) :
    (UpgradeAnimationIsFaded c = true ↔
      c ∈ [1, 2, 9, 10, 17, 18, 25, 26, 33, 34, 41, 42, 49, 50, 57, 58]) ∧
    (UpgradeAnimationIsFaded c = true ↔ (c % 8 = 1 ∨ c % 8 = 2)) ∧
    (UpgradeAnimationIsFaded c = false ↔ ¬ (c % 8 = 1 ∨ c % 8 = 2)) ∧
    UpgradeAnimationIsFaded c = (decide (c > 0) && ((c - 1) / 2 % 4 == 0)) := by
  interval_cases c <;> decide

/-- Witness of C1 at c = 10 (faded) . -/
theorem C1_faded_cadence_witness :
    (1 : Int) ≤ 10 ∧ (10 : Int) ≤ 64 ∧ UpgradeAnimationIsFaded 10 = true :=
  ⟨by decide, by decide,
    (C1_faded_cadence 10 (by decide) (by decide)).1.mpr (by decide)⟩

/-- C2: `MaybeShowUpgradeReminder` calls `StartThrobbing(-1)` if and only if the
window is active, an update is available and the reminder was not cancelled;
in every other combination it resets the animation, which is then idle. In
particular an inactive window always gives the idle animation. The cancelled
flag is left as it was. -/
theorem C2_maybe_show_starts_iff (env : Env) (t : BrowserToolbarGtk) :
    (MaybeShowUpgradeReminder env t =
        { t with upgrade_reminder_animation_ :=
            t.upgrade_reminder_animation_.StartThrobbing (-1) } ↔
      (env.window_IsActive = true ∧ env.notify_upgrade = true ∧
        t.upgrade_reminder_canceled_ = false)) ∧
    ((MaybeShowUpgradeReminder env t).upgrade_reminder_animation_.is_animating = true ↔
      (env.window_IsActive = true ∧ env.notify_upgrade = true ∧
        t.upgrade_reminder_canceled_ = false)) ∧
    (¬ (env.window_IsActive = true ∧ env.notify_upgrade = true ∧
        t.upgrade_reminder_canceled_ = false) →
      MaybeShowUpgradeReminder env t =
        { t with upgrade_reminder_animation_ := t.upgrade_reminder_animation_.Reset } ∧
      (MaybeShowUpgradeReminder env t).upgrade_reminder_animation_ = ThrobAnimation.idle) ∧
    (env.window_IsActive = false →
      (MaybeShowUpgradeReminder env t).upgrade_reminder_animation_ = ThrobAnimation.idle) ∧
    (MaybeShowUpgradeReminder env t).upgrade_reminder_canceled_ =
      t.upgrade_reminder_canceled_ := by
  obtain ⟨anim, canceled, r, d, sh, hp, nt⟩ := t
  cases ha : env.window_IsActive <;> cases hu : env.notify_upgrade <;> cases canceled <;>
    simp [MaybeShowUpgradeReminder, ThrobAnimation.StartThrobbing, ThrobAnimation.Reset,
      ThrobAnimation.is_animating, ha, hu]

/-- Witness of C2: an inactive window gives the idle animation, also from a
running throb with an update available. -/
theorem C2_maybe_show_starts_iff_witness :
    (MaybeShowUpgradeReminder { sampleEnv with window_IsActive := false }
      throbbingToolbar).upgrade_reminder_animation_ = ThrobAnimation.idle :=
  (C2_maybe_show_starts_iff { sampleEnv with window_IsActive := false }
    throbbingToolbar).2.2.2.1 rfl

/-- C3, as stated, fails: with the window active and an update available,
`ActiveWindowChanged` on a toolbar whose reminder was dismissed leaves the
dismissed flag true and the animation idle. -/
theorem C3_focus_gained_counterexample :
    sampleEnv.window_IsActive = true ∧ sampleEnv.notify_upgrade = true ∧
    dismissedToolbar.upgrade_reminder_canceled_ = true ∧
    (ActiveWindowChanged sampleEnv dismissedToolbar).upgrade_reminder_canceled_ = true ∧
    (ActiveWindowChanged sampleEnv dismissedToolbar).upgrade_reminder_animation_ =
      ThrobAnimation.idle := by
  decide

/-- C3, amended: `ActiveWindowChanged` never changes the dismissed flag, nor any
member other than the animation, for every toolbar and every answer of the
window and the upgrade detector; on a toolbar whose reminder was dismissed the
flag is still true afterwards and the animation is reset to idle, not started
again. -/
theorem C3_focus_gained_keeps_dismissed (env : Env) (t : BrowserToolbarGtk) :
    (ActiveWindowChanged env t).upgrade_reminder_canceled_ =
      t.upgrade_reminder_canceled_ ∧
    ActiveWindowChanged env t =
      { t with upgrade_reminder_animation_ :=
          (ActiveWindowChanged env t).upgrade_reminder_animation_ } ∧
    (t.upgrade_reminder_canceled_ = true →
      (ActiveWindowChanged env t).upgrade_reminder_canceled_ = true ∧
      (ActiveWindowChanged env t).upgrade_reminder_animation_ = ThrobAnimation.idle ∧
      ActiveWindowChanged env t =
        { t with upgrade_reminder_animation_ := t.upgrade_reminder_animation_.Reset }) := by
  obtain ⟨anim, canceled, r, d, sh, hp, nt⟩ := t
  refine ⟨?_, ?_, ?_⟩
  · simp only [ActiveWindowChanged, MaybeShowUpgradeReminder]
    split_ifs <;> rfl
  · simp only [ActiveWindowChanged, MaybeShowUpgradeReminder]
    split_ifs <;> rfl
  · intro h
    simp only at h
    subst h
    simp [ActiveWindowChanged, MaybeShowUpgradeReminder, ThrobAnimation.Reset]

/-- Witness of the amended C3 at the dismissed toolbar. -/
theorem C3_focus_gained_keeps_dismissed_witness :
    dismissedToolbar.upgrade_reminder_canceled_ = true ∧
    (ActiveWindowChanged sampleEnv dismissedToolbar).upgrade_reminder_canceled_ = true ∧
    (ActiveWindowChanged sampleEnv dismissedToolbar).upgrade_reminder_animation_ =
      ThrobAnimation.idle :=
  ⟨rfl, ((C3_focus_gained_keeps_dismissed sampleEnv dismissedToolbar).2.2 rfl).1,
    ((C3_focus_gained_keeps_dismissed sampleEnv dismissedToolbar).2.2 rfl).2.1⟩

/-- C4, as stated, fails: when the app menu is shown while no throb is running,
the dismissed flag stays false. -/
theorem C4_dismiss_counterexample :
    sampleToolbar.upgrade_reminder_animation_.is_animating = false ∧
    (OnAppMenuShow sampleEnv sampleToolbar).upgrade_reminder_canceled_ = false := by
  decide

/-- C4, amended: `OnAppMenuShow` dismisses only a running throb. If the animation
is animating, the toolbar afterwards has the dismissed flag true and the
animation reset to idle; if it is not, the toolbar is unchanged. In both cases
the animation is not animating afterwards. -/
theorem C4_dismiss_only_when_animating (env : Env) (t : BrowserToolbarGtk) :
    OnAppMenuShow env t =
      (if t.upgrade_reminder_animation_.is_animating then
        { t with upgrade_reminder_canceled_ := true,
                 upgrade_reminder_animation_ := ThrobAnimation.idle }
       else t) ∧
    (OnAppMenuShow env t).upgrade_reminder_animation_ = ThrobAnimation.idle := by
  obtain ⟨anim, canceled, r, d, sh, hp, nt⟩ := t
  cases anim <;>
    simp [OnAppMenuShow, MaybeShowUpgradeReminder, ThrobAnimation.Reset,
      ThrobAnimation.is_animating]

/-- C5, as stated, fails: from a toolbar with the dismissed flag false and no
throb running, showing the app menu and then re-evaluating with the window
active and an update available starts the unbounded throb. -/
theorem C5_dismiss_then_maybe_show_counterexample :
    sampleToolbar.upgrade_reminder_canceled_ = false ∧
    sampleEnv.window_IsActive = true ∧ sampleEnv.notify_upgrade = true ∧
    (MaybeShowUpgradeReminder sampleEnv
      (OnAppMenuShow sampleEnv sampleToolbar)).upgrade_reminder_animation_ =
      ThrobAnimation.throbbing (-1) := by
  decide

/-- C5, amended: for every toolbar whose throb is animating when the app menu is
shown, `OnAppMenuShow` followed by `MaybeShowUpgradeReminder` leaves the
animation idle and the dismissed flag true, whatever the window and the upgrade
detector answer at either call. -/
theorem C5_dismiss_then_maybe_show_idle (env env2 : Env) (t : BrowserToolbarGtk)
    (h : t.upgrade_reminder_animation_.is_animating = true) :
    (MaybeShowUpgradeReminder env2 (OnAppMenuShow env t)).upgrade_reminder_animation_ =
      ThrobAnimation.idle ∧
    (MaybeShowUpgradeReminder env2 (OnAppMenuShow env t)).upgrade_reminder_canceled_ =
      true := by
  obtain ⟨anim, canceled, r, d, sh, hp, nt⟩ := t
  simp only at h
  simp [OnAppMenuShow, MaybeShowUpgradeReminder, ThrobAnimation.Reset, h]

/-- Witness of the amended C5 at the toolbar with a running throb. -/
theorem C5_dismiss_then_maybe_show_idle_witness :
    throbbingToolbar.upgrade_reminder_animation_.is_animating = true ∧
    (MaybeShowUpgradeReminder sampleEnv
      (OnAppMenuShow sampleEnv throbbingToolbar)).upgrade_reminder_animation_ =
      ThrobAnimation.idle :=
  ⟨rfl, (C5_dismiss_then_maybe_show_idle sampleEnv sampleEnv throbbingToolbar rfl).1⟩

/-- C6: when an update is available, the badge `OnAppMenuImageExpose` draws is a
function of `UpgradeAnimationIsFaded` and the animation value. If the
animation is not faded the badge is the plain inactive image, whatever the
animation value is; if it is faded the badge is
`CreateBlendedBitmap(active, inactive, GetCurrentValue())`. -/
theorem C6_badge_choice (env : Env) (allocation : Rect) (h : env.notify_upgrade = true) :
    (UpgradeAnimationIsFaded env.cycles_remaining = false →
      ∀ v : ℚ,
        upgradeBadge { env with GetCurrentValue := v } = env.IDR_UPGRADE_DOT_INACTIVE ∧
        OnAppMenuImageExpose { env with GetCurrentValue := v } allocation =
          (false,
            [Effect.DrawBitmapInt env.IDR_UPGRADE_DOT_INACTIVE
              (add32 allocation.x
                (upgradeBadgeXOffset env allocation env.IDR_UPGRADE_DOT_INACTIVE))
              (sub32 (add32 allocation.y allocation.height)
                env.IDR_UPGRADE_DOT_INACTIVE.height)])) ∧
    (UpgradeAnimationIsFaded env.cycles_remaining = true →
      upgradeBadge env =
        env.CreateBlendedBitmap env.IDR_UPGRADE_DOT_ACTIVE env.IDR_UPGRADE_DOT_INACTIVE
          env.GetCurrentValue ∧
      OnAppMenuImageExpose env allocation =
        (false,
          [Effect.DrawBitmapInt (upgradeBadge env)
            (add32 allocation.x (upgradeBadgeXOffset env allocation (upgradeBadge env)))
            (sub32 (add32 allocation.y allocation.height) (upgradeBadge env).height)])) := by
  constructor
  · intro hf v
    simp [OnAppMenuImageExpose, upgradeBadge, upgradeBadgeXOffset, h, hf]
  · intro hf
    simp [OnAppMenuImageExpose, upgradeBadge, h, hf]

/-- Witness of C6: with three cycles remaining the badge is the inactive dot at
animation value 1/2; with nine cycles remaining it is the blend. -/
theorem C6_badge_choice_witness :
    sampleEnv.notify_upgrade = true ∧
    upgradeBadge { sampleEnv with cycles_remaining := 3, GetCurrentValue := 1 / 2 } =
      sampleDot 0 ∧
    upgradeBadge sampleEnv =
      sampleEnv.CreateBlendedBitmap (sampleDot 1) (sampleDot 0) 0 :=
  ⟨rfl,
   ((C6_badge_choice { sampleEnv with cycles_remaining := 3 } sampleAllocation rfl).1
      (by decide) (1 / 2)).1,
   ((C6_badge_choice sampleEnv sampleAllocation rfl).2 (by decide)).1⟩

/-- C7, as stated, fails: with 3 remaining cycles, and also with `INT_MAX` and
with -1 remaining cycles, a tick queues no redraw. -/
theorem C7_tick_redraw_counterexample :
    AnimationProgressed { sampleEnv with cycles_remaining := 3 } = [] ∧
    AnimationProgressed { sampleEnv with cycles_remaining := INT_MAX } = [] ∧
    AnimationProgressed { sampleEnv with cycles_remaining := -1 } = [] := by
  decide

/-- C7, amended: `AnimationProgressed` queues a redraw of the app-menu image
exactly when `UpgradeAnimationIsFaded` holds for the remaining-cycle count; on
every other tick it makes no call. `AnimationEnded` and `AnimationCanceled`
always queue the redraw. -/
theorem C7_tick_redraws_iff_faded (env : Env) :
    (AnimationProgressed env = [Effect.gtk_widget_queue_draw Widget.app_menu_image_] ↔
      UpgradeAnimationIsFaded env.cycles_remaining = true) ∧
    (AnimationProgressed env = [] ↔
      UpgradeAnimationIsFaded env.cycles_remaining = false) ∧
    AnimationEnded = [Effect.gtk_widget_queue_draw Widget.app_menu_image_] ∧
    AnimationCanceled = [Effect.gtk_widget_queue_draw Widget.app_menu_image_] := by
  cases hf : UpgradeAnimationIsFaded env.cycles_remaining <;>
    simp [AnimationProgressed, AnimationEnded, AnimationCanceled, hf]

/-- C8: `Observe` reaches `NOTREACHED` if and only if the notification type is
none of `PREF_CHANGED`, `BROWSER_THEME_CHANGED` and `UPGRADE_RECOMMENDED`, and
then `NOTREACHED` is the only thing it does; for `UPGRADE_RECOMMENDED` it
returns the toolbar of `MaybeShowUpgradeReminder` and makes no call. -/
theorem C8_observe_dispatch (env : Env) (type : NotificationType)
    (details : Option String) (t : BrowserToolbarGtk) :
    (Effect.NOTREACHED ∈ (Observe env type details t).2 ↔
      (type ≠ NotificationType.PREF_CHANGED ∧
       type ≠ NotificationType.BROWSER_THEME_CHANGED ∧
       type ≠ NotificationType.UPGRADE_RECOMMENDED)) ∧
    ((type ≠ NotificationType.PREF_CHANGED ∧
       type ≠ NotificationType.BROWSER_THEME_CHANGED ∧
       type ≠ NotificationType.UPGRADE_RECOMMENDED) →
      Observe env type details t = (t, [Effect.NOTREACHED])) ∧
    Observe env NotificationType.UPGRADE_RECOMMENDED details t =
      (MaybeShowUpgradeReminder env t, []) := by
  refine ⟨?_, ?_, rfl⟩
  · cases type with
    | PREF_CHANGED =>
      simp only [Observe, NotifyPrefChanged, SetUpDragForHomeButton]
      split_ifs <;> simp
    | BROWSER_THEME_CHANGED =>
      simp only [Observe, UpdateRoundedness, ActAsRoundedWindow, StopActingAsRoundedWindow]
      split_ifs <;> simp
    | UPGRADE_RECOMMENDED => simp [Observe]
    | other code => simp [Observe]
  · rintro ⟨h1, h2, h3⟩
    cases type with
    | PREF_CHANGED => exact absurd rfl h1
    | BROWSER_THEME_CHANGED => exact absurd rfl h2
    | UPGRADE_RECOMMENDED => exact absurd rfl h3
    | other code => rfl

/-- Witness of C8: a notification type outside the three reaches `NOTREACHED`. -/
theorem C8_observe_dispatch_witness :
    Effect.NOTREACHED ∈
      (Observe sampleEnv (NotificationType.other 0) none sampleToolbar).2 :=
  (C8_observe_dispatch sampleEnv (NotificationType.other 0) none sampleToolbar).1.mpr
    ⟨by decide, by decide, by decide⟩

/-- C9, as stated, fails: in GTK theme mode with the content drop shadow on and
`alignment_` not yet rounded, the first `OnAlignmentExpose` returns TRUE after
calling `ActAsRoundedWindow`; the same expose event handled again in the same
environment returns FALSE and makes no call. -/
theorem C9_expose_twice_counterexample :
    (OnAlignmentExpose sampleRectOps gtkShadowEnv sampleAllocation sampleAllocation
      sampleToolbar).1 = true ∧
    (OnAlignmentExpose sampleRectOps gtkShadowEnv sampleAllocation sampleAllocation
      sampleToolbar).2.2 = [Effect.ActAsRoundedWindow Widget.alignment_ 3] ∧
    (OnAlignmentExpose sampleRectOps gtkShadowEnv sampleAllocation sampleAllocation
      (OnAlignmentExpose sampleRectOps gtkShadowEnv sampleAllocation sampleAllocation
        sampleToolbar).2.1).1 = false ∧
    (OnAlignmentExpose sampleRectOps gtkShadowEnv sampleAllocation sampleAllocation
      (OnAlignmentExpose sampleRectOps gtkShadowEnv sampleAllocation sampleAllocation
        sampleToolbar).2.1).2.2 = [] := by
  decide

/-- C9, amended: when the rounded state of `alignment_` already equals
`UseGtkTheme() && ShouldDrawContentDropShadow()`, `OnAlignmentExpose` leaves the
toolbar unchanged and handling the same expose event again in the same
environment gives the same return value and the same calls. From any toolbar,
the rounded state agrees after one call, so the second and every later
handling of the event agree with each other. When the rounded state is stale,
the first call returns TRUE, its only call is the one that updates the
roundedness (`ActAsRoundedWindow` or `StopActingAsRoundedWindow`), it draws
nothing, and it changes no member but the rounded state. -/
theorem C9_expose_idempotent_when_rounded_agrees (ops : RectOps) (env : Env)
    (allocation e_area : Rect) (t : BrowserToolbarGtk) :
    (IsActingAsRoundedWindow t = (env.UseGtkTheme && env.ShouldDrawContentDropShadow) →
      (OnAlignmentExpose ops env allocation e_area t).2.1 = t ∧
      OnAlignmentExpose ops env allocation e_area
          (OnAlignmentExpose ops env allocation e_area t).2.1 =
        OnAlignmentExpose ops env allocation e_area t) ∧
    IsActingAsRoundedWindow (OnAlignmentExpose ops env allocation e_area t).2.1 =
      (env.UseGtkTheme && env.ShouldDrawContentDropShadow) ∧
    OnAlignmentExpose ops env allocation e_area
        (OnAlignmentExpose ops env allocation e_area
          (OnAlignmentExpose ops env allocation e_area t).2.1).2.1 =
      OnAlignmentExpose ops env allocation e_area
        (OnAlignmentExpose ops env allocation e_area t).2.1 ∧
    (IsActingAsRoundedWindow t ≠ (env.UseGtkTheme && env.ShouldDrawContentDropShadow) →
      OnAlignmentExpose ops env allocation e_area t =
        (true,
          { t with alignment_rounded :=
              (env.UseGtkTheme && env.ShouldDrawContentDropShadow) },
          [if (env.UseGtkTheme && env.ShouldDrawContentDropShadow) = true then
             Effect.ActAsRoundedWindow Widget.alignment_ kToolbarCornerSize
           else Effect.StopActingAsRoundedWindow Widget.alignment_])) := by
  obtain ⟨anim, canceled, r, d, sh, hp, nt⟩ := t
  cases hg : env.UseGtkTheme <;> cases hs : env.ShouldDrawContentDropShadow <;>
    cases r <;>
    simp [OnAlignmentExpose, UpdateRoundedness, IsActingAsRoundedWindow,
      ActAsRoundedWindow, StopActingAsRoundedWindow, hg, hs]

/-- Witness of the amended C9: in Chromium theme mode without drop shadow the
unrounded toolbar is redrawn identically; in GTK theme mode with the drop shadow
the first expose of the unrounded toolbar only rounds `alignment_`. -/
theorem C9_expose_idempotent_when_rounded_agrees_witness :
    OnAlignmentExpose sampleRectOps sampleEnv sampleAllocation sampleAllocation
        (OnAlignmentExpose sampleRectOps sampleEnv sampleAllocation sampleAllocation
          sampleToolbar).2.1 =
      OnAlignmentExpose sampleRectOps sampleEnv sampleAllocation sampleAllocation
        sampleToolbar ∧
    OnAlignmentExpose sampleRectOps gtkShadowEnv sampleAllocation sampleAllocation
        sampleToolbar =
      (true, { sampleToolbar with alignment_rounded := true },
        [Effect.ActAsRoundedWindow Widget.alignment_ kToolbarCornerSize]) :=
  ⟨((C9_expose_idempotent_when_rounded_agrees sampleRectOps sampleEnv sampleAllocation
      sampleAllocation sampleToolbar).1 rfl).2,
   (C9_expose_idempotent_when_rounded_agrees sampleRectOps gtkShadowEnv sampleAllocation
      sampleAllocation sampleToolbar).2.2.2 (by decide)⟩

/-- C10: in Chromium theme mode with the rounded state of `alignment_` unchanged,
if `ShouldDrawContentDropShadow()` is false then `OnAlignmentExpose` fills the
background over exactly the exposed area and destroys the context, with no
call of the corner-mask compositing; and in every mode, a call of the
corner-mask compositing is made only if `ShouldDrawContentDropShadow()` is
true. -/
theorem C10_corner_mask_only_with_drop_shadow (ops : RectOps) (env : Env)
    (allocation e_area : Rect) (t : BrowserToolbarGtk) :
    (env.UseGtkTheme = false → IsActingAsRoundedWindow t = false →
      env.ShouldDrawContentDropShadow = false →
      OnAlignmentExpose ops env allocation e_area t =
        (false, t,
          [Effect.gdk_cairo_create,
           Effect.gdk_cairo_rectangle Cairo.cr e_area,
           Effect.cairo_clip Cairo.cr,
           Effect.gdk_cairo_set_source_color Cairo.cr env.COLOR_TOOLBAR,
           Effect.cairo_fill Cairo.cr,
           Effect.SetSource Surface.IDR_THEME_TOOLBAR Cairo.cr
             env.tabstrip_origin.x env.tabstrip_origin.y,
           Effect.cairo_pattern_set_extend_REPEAT Cairo.cr,
           Effect.cairo_rectangle Cairo.cr e_area.x e_area.y e_area.width e_area.height,
           Effect.cairo_fill Cairo.cr,
           Effect.cairo_destroy Cairo.cr])) ∧
    (∀ fx ∈ (OnAlignmentExpose ops env allocation e_area t).2.2,
      fx.isCornerMaskCall = true → env.ShouldDrawContentDropShadow = true) := by
  obtain ⟨anim, canceled, r, d, sh, hp, nt⟩ := t
  cases hg : env.UseGtkTheme <;> cases hs : env.ShouldDrawContentDropShadow <;>
    cases r <;>
    simp [OnAlignmentExpose, UpdateRoundedness, IsActingAsRoundedWindow,
      ActAsRoundedWindow, StopActingAsRoundedWindow, Effect.isCornerMaskCall, hg, hs]

/-- Witness of C10: the flat fill of the sample toolbar, and the drop shadow
behind a corner-mask call of an expose over the whole allocation. -/
theorem C10_corner_mask_only_with_drop_shadow_witness :
    (OnAlignmentExpose sampleRectOps sampleEnv sampleAllocation sampleAllocation
      sampleToolbar).2.2.length = 10 ∧
    ({ sampleEnv with ShouldDrawContentDropShadow := true } : Env).ShouldDrawContentDropShadow
      = true :=
  ⟨by
    rw [(C10_corner_mask_only_with_drop_shadow sampleRectOps sampleEnv sampleAllocation
      sampleAllocation sampleToolbar).1 rfl rfl rfl]
    rfl,
   (C10_corner_mask_only_with_drop_shadow sampleRectOps
      { sampleEnv with ShouldDrawContentDropShadow := true } sampleAllocation
      sampleAllocation sampleToolbar).2
      (Effect.cairo_surface_create_similar 100 29) (by decide) rfl⟩

/-- A result that fits in 32 bits is not changed by wrapping. -/
theorem wrapInt32_of_fitsInt32 (n : Int) (h : fitsInt32 n = true) : wrapInt32 n = n := by
  simp [fitsInt32, INT_MIN, INT_MAX] at h
  simp only [wrapInt32]
  omega

/-- C12: when an update is available, `OnAppMenuImageExpose` draws the badge, and
wherever the 32-bit operations of lines 735-741 do not overflow, its left edge
is at `x + 11` in left-to-right layouts and at `x + width - 11 - bw` in
right-to-left layouts, where the badge's right edge is then `x + width - 11`;
in both its top is at `y + height - bh`, so its bottom edge is the allocation's
bottom edge `y + height`. -/
theorem C12_badge_placement (env : Env) (allocation : Rect)
    (h : env.notify_upgrade = true) :
    ∃ bx by_ : Int,
      OnAppMenuImageExpose env allocation =
        (false, [Effect.DrawBitmapInt (upgradeBadge env) bx by_]) ∧
      kUpgradeDotOffset = 11 ∧
      (env.IsRTL = false → fitsInt32 (allocation.x + 11) = true →
        bx = allocation.x + 11) ∧
      (env.IsRTL = true →
        fitsInt32 (allocation.width - 11) = true →
        fitsInt32 (allocation.width - 11 - (upgradeBadge env).width) = true →
        fitsInt32 (allocation.x +
          (allocation.width - 11 - (upgradeBadge env).width)) = true →
        bx = allocation.x + allocation.width - 11 - (upgradeBadge env).width ∧
        bx + (upgradeBadge env).width = allocation.x + allocation.width - 11) ∧
      (fitsInt32 (allocation.y + allocation.height) = true →
        fitsInt32 (allocation.y + allocation.height - (upgradeBadge env).height) = true →
        by_ = allocation.y + allocation.height - (upgradeBadge env).height ∧
        by_ + (upgradeBadge env).height = allocation.y + allocation.height) := by
  refine ⟨add32 allocation.x (upgradeBadgeXOffset env allocation (upgradeBadge env)),
    sub32 (add32 allocation.y allocation.height) (upgradeBadge env).height,
    ?_, rfl, ?_, ?_, ?_⟩
  · simp [OnAppMenuImageExpose, h]
  · intro hl h1
    simp only [upgradeBadgeXOffset, hl, kUpgradeDotOffset, add32]
    exact wrapInt32_of_fitsInt32 _ h1
  · intro hr h1 h2 h3
    simp only [upgradeBadgeXOffset, hr, kUpgradeDotOffset, add32, sub32, if_true]
    rw [wrapInt32_of_fitsInt32 _ h1, wrapInt32_of_fitsInt32 _ h2,
      wrapInt32_of_fitsInt32 _ h3]
    constructor <;> omega
  · intro h1 h2
    simp only [add32, sub32]
    rw [wrapInt32_of_fitsInt32 _ h1, wrapInt32_of_fitsInt32 _ h2]
    constructor <;> omega

/-- Witness of C12: in a right-to-left layout a one-pixel badge on the 100 by 29
allocation is drawn at (88, 28). -/
theorem C12_badge_placement_witness :
    ∃ bx by_ : Int,
      OnAppMenuImageExpose { sampleEnv with IsRTL := true } sampleAllocation =
        (false, [Effect.DrawBitmapInt (sampleDot 1) bx by_]) ∧ bx = 88 ∧ by_ = 28 := by
  obtain ⟨bx, by_, h1, _, _, h4, h5⟩ :=
    C12_badge_placement { sampleEnv with IsRTL := true } sampleAllocation rfl
  exact ⟨bx, by_, h1, (h4 rfl (by decide) (by decide) (by decide)).1,
    (h5 (by decide) (by decide)).1⟩

/-- C13: `OnDragDataReceived` writes the home-page preferences only for a
plain-text drop holding a valid URL. For any other drop info, or an invalid
URL, the toolbar is unchanged and no `SetValue` is called; for the new-tab
URL only `home_page_is_new_tab_page_` is written, with true; for every other
valid URL `home_page_is_new_tab_page_` is written with false and `home_page_`
with the URL's spec. -/
theorem C13_drop_on_home_button (env : Env) (info : DndTarget) (url_is_valid : Bool)
    (url_spec : String) (t : BrowserToolbarGtk) :
    (info ≠ DndTarget.TEXT_PLAIN →
      OnDragDataReceived env info url_is_valid url_spec t = (t, [Effect.NOTIMPLEMENTED])) ∧
    (info = DndTarget.TEXT_PLAIN → url_is_valid = false →
      OnDragDataReceived env info url_is_valid url_spec t = (t, [])) ∧
    (info = DndTarget.TEXT_PLAIN → url_is_valid = true →
      url_spec = env.kChromeUINewTabURL →
      OnDragDataReceived env info url_is_valid url_spec t =
        ({ t with home_page_is_new_tab_page_ := true },
          [Effect.home_page_is_new_tab_page_SetValue true])) ∧
    (info = DndTarget.TEXT_PLAIN → url_is_valid = true →
      url_spec ≠ env.kChromeUINewTabURL →
      OnDragDataReceived env info url_is_valid url_spec t =
        ({ t with home_page_is_new_tab_page_ := false, home_page_ := url_spec },
          [Effect.home_page_is_new_tab_page_SetValue false,
           Effect.home_page_SetValue url_spec])) := by
  refine ⟨?_, ?_, ?_, ?_⟩
  · intro h
    simp [OnDragDataReceived, h]
  · intro h hv
    simp [OnDragDataReceived, h, hv]
  · intro h hv hn
    simp [OnDragDataReceived, h, hv, hn]
  · intro h hv hn
    simp [OnDragDataReceived, h, hv, hn]

/-- Witness of C13: the four kinds of drop on the sample toolbar. -/
theorem C13_drop_on_home_button_witness :
    OnDragDataReceived sampleEnv DndTarget.TEXT_URI_LIST true "http://a.test/" sampleToolbar =
      (sampleToolbar, [Effect.NOTIMPLEMENTED]) ∧
    OnDragDataReceived sampleEnv DndTarget.TEXT_PLAIN false "http://a.test/" sampleToolbar =
      (sampleToolbar, []) ∧
    (OnDragDataReceived sampleEnv DndTarget.TEXT_PLAIN true "chrome://newtab/"
      { sampleToolbar with home_page_is_new_tab_page_ := false }).1 = sampleToolbar ∧
    (OnDragDataReceived sampleEnv DndTarget.TEXT_PLAIN true "http://a.test/"
      sampleToolbar).1.home_page_ = "http://a.test/" :=
  ⟨(C13_drop_on_home_button sampleEnv DndTarget.TEXT_URI_LIST true "http://a.test/"
      sampleToolbar).1 (by decide),
   (C13_drop_on_home_button sampleEnv DndTarget.TEXT_PLAIN false "http://a.test/"
      sampleToolbar).2.1 rfl rfl,
   by
    rw [(C13_drop_on_home_button sampleEnv DndTarget.TEXT_PLAIN true "chrome://newtab/"
      { sampleToolbar with home_page_is_new_tab_page_ := false }).2.2.1 rfl rfl rfl]
    rfl,
   by
    rw [(C13_drop_on_home_button sampleEnv DndTarget.TEXT_PLAIN true "http://a.test/"
      sampleToolbar).2.2.2 rfl rfl (by decide)]⟩

/-- C15: on every 32-bit value of `cycles_remaining()`, evaluating
`UpgradeAnimationIsFaded` with `&&` short-circuiting never overflows and gives
the value of the embedding; the subtraction is evaluated only for c > 0, where
c - 1 fits, although `INT_MIN - 1` would not; the result is false for every
c <= 0, in particular for 0 (where `((c-1)/2) % 4 == 0` alone is true under
truncating division), for -1 and for `INT_MIN`. -/
theorem C15_faded_total_no_overflow (c : Int) (hlo : INT_MIN ≤ c) (hhi : c ≤ INT_MAX) :
    UpgradeAnimationIsFadedChecked c = some (UpgradeAnimationIsFaded c) ∧
    (c > 0 → checkedSub32 c 1 = some (c - 1)) ∧
    (c ≤ 0 → UpgradeAnimationIsFadedChecked c = some false ∧
      UpgradeAnimationIsFaded c = false) ∧
    checkedSub32 INT_MIN 1 = none ∧
    (Int.tmod (Int.tdiv ((0 : Int) - 1) 2) 4 == 0) = true ∧
    UpgradeAnimationIsFaded 0 = false ∧
    UpgradeAnimationIsFaded (-1) = false ∧
    UpgradeAnimationIsFaded INT_MIN = false := by
  simp only [INT_MIN, INT_MAX] at hlo hhi
  have hsub : c > 0 → checkedSub32 c 1 = some (c - 1) := by
    intro hc
    have h1 : INT_MIN ≤ c - 1 ∧ c - 1 ≤ INT_MAX := by
      simp only [INT_MIN, INT_MAX]; omega
    simp [checkedSub32, h1]
  have hwrap : c > 0 → wrapInt32 (c - 1) = c - 1 := by
    intro hc
    simp only [wrapInt32]
    omega
  refine ⟨?_, hsub, ?_, by decide, by decide, by decide, by decide, by decide⟩
  · by_cases hc : c > 0
    · simp [UpgradeAnimationIsFadedChecked, UpgradeAnimationIsFaded, hc, hsub hc, hwrap hc]
    · simp [UpgradeAnimationIsFadedChecked, UpgradeAnimationIsFaded, hc]
  · intro hc
    have hc2 : ¬ c > 0 := by omega
    simp [UpgradeAnimationIsFadedChecked, UpgradeAnimationIsFaded, hc2]

/-- Witness of C15 at `INT_MIN` and at `INT_MAX`. -/
theorem C15_faded_total_no_overflow_witness :
    UpgradeAnimationIsFadedChecked INT_MIN = some false ∧
    UpgradeAnimationIsFadedChecked INT_MAX = some (UpgradeAnimationIsFaded INT_MAX) ∧
    checkedSub32 INT_MAX 1 = some (INT_MAX - 1) :=
  ⟨((C15_faded_total_no_overflow INT_MIN (by decide) (by decide)).2.2.1 (by decide)).1,
   (C15_faded_total_no_overflow INT_MAX (by decide) (by decide)).1,
   (C15_faded_total_no_overflow INT_MAX (by decide) (by decide)).2.1 (by decide)⟩

/-- C16: for a widget allocation (width and height not negative) on which the
32-bit operations of lines 530-538 do not overflow, the left corner rectangle
is (x - 2, y - 2, 4, height + 2), the right corner rectangle is
(x + width - 4, y - 2, 4, height + 2), and the two are disjoint if and only
if width >= 6: from 6 pixels of width on, no pixel of the right corner
rectangle is a pixel of the left one, and for a narrower allocation some pixel
lies in both. -/
theorem C16_corner_rectangles_disjoint_iff (allocation : Rect)
    (hw : 0 ≤ allocation.width) (hh : 0 ≤ allocation.height)
    (hx2 : fitsInt32 (allocation.x - 2) = true)
    (hxw : fitsInt32 (allocation.x + allocation.width) = true)
    (hxw4 : fitsInt32 (allocation.x + allocation.width - 4) = true)
    (hy2 : fitsInt32 (allocation.y - 2) = true)
    (hh2 : fitsInt32 (allocation.height + 2) = true) :
    leftCorner allocation =
      { x := allocation.x - 2, y := allocation.y - 2, width := 4,
        height := allocation.height + 2 } ∧
    rightCorner allocation =
      { x := allocation.x + allocation.width - 4, y := allocation.y - 2, width := 4,
        height := allocation.height + 2 } ∧
    ((leftCorner allocation).disjoint (rightCorner allocation) ↔ 6 ≤ allocation.width) ∧
    (6 ≤ allocation.width → ∀ px py : Int,
      (rightCorner allocation).containsPixel px py = true →
      (leftCorner allocation).containsPixel px py = false) ∧
    (allocation.width < 6 → ∃ px py : Int,
      (leftCorner allocation).containsPixel px py = true ∧
      (rightCorner allocation).containsPixel px py = true) := by
  obtain ⟨x, y, w, h⟩ := allocation
  simp only at hw hh hx2 hxw hxw4 hy2 hh2
  have hl : leftCorner ⟨x, y, w, h⟩ = ⟨x - 2, y - 2, 4, h + 2⟩ := by
    simp only [leftCorner, kCornerWidth, kShadowThickness, add32, sub32]
    rw [wrapInt32_of_fitsInt32 _ hx2, wrapInt32_of_fitsInt32 _ hy2,
      wrapInt32_of_fitsInt32 _ hh2]
  have hr : rightCorner ⟨x, y, w, h⟩ = ⟨x + w - 4, y - 2, 4, h + 2⟩ := by
    simp only [rightCorner, kCornerWidth, kShadowThickness, add32, sub32]
    rw [wrapInt32_of_fitsInt32 _ hxw, wrapInt32_of_fitsInt32 _ hxw4,
      wrapInt32_of_fitsInt32 _ hy2, wrapInt32_of_fitsInt32 _ hh2]
  rw [hl, hr]
  have hover : w < 6 → ∃ px py : Int,
      (⟨x - 2, y - 2, 4, h + 2⟩ : Rect).containsPixel px py = true ∧
      (⟨x + w - 4, y - 2, 4, h + 2⟩ : Rect).containsPixel px py = true := by
    intro hlt
    by_cases h2 : 2 ≤ w
    · refine ⟨x + w - 4, y - 2, ?_, ?_⟩ <;> simp [Rect.containsPixel] <;> omega
    · refine ⟨x - 2, y - 2, ?_, ?_⟩ <;> simp [Rect.containsPixel] <;> omega
  have hdis : 6 ≤ w → ∀ px py : Int,
      (⟨x + w - 4, y - 2, 4, h + 2⟩ : Rect).containsPixel px py = true →
      (⟨x - 2, y - 2, 4, h + 2⟩ : Rect).containsPixel px py = false := by
    intro hge px py hpx
    simp [Rect.containsPixel] at hpx ⊢
    omega
  refine ⟨rfl, rfl, ?_, hdis, hover⟩
  show (⟨x - 2, y - 2, 4, h + 2⟩ : Rect).disjoint ⟨x + w - 4, y - 2, 4, h + 2⟩ ↔ 6 ≤ w
  constructor
  · intro hd
    by_contra hn
    obtain ⟨px, py, hpl, hpr⟩ := hover (by omega)
    exact hd px py ⟨hpl, hpr⟩
  · intro hge px py ⟨hpl, hpr⟩
    have := hdis hge px py hpr
    rw [hpl] at this
    exact absurd this (by decide)

/-- Witness of C16: the corner rectangles of the 100 by 29 allocation are
disjoint, and those of a 5 by 29 allocation share a pixel. -/
theorem C16_corner_rectangles_disjoint_iff_witness :
    (leftCorner sampleAllocation).disjoint (rightCorner sampleAllocation) ∧
    ∃ px py : Int,
      (leftCorner { x := 0, y := 0, width := 5, height := 29 }).containsPixel px py = true ∧
      (rightCorner { x := 0, y := 0, width := 5, height := 29 }).containsPixel px py = true :=
  ⟨(C16_corner_rectangles_disjoint_iff sampleAllocation (by decide) (by decide)
      (by decide) (by decide) (by decide) (by decide) (by decide)).2.2.1.mpr (by decide),
   (C16_corner_rectangles_disjoint_iff { x := 0, y := 0, width := 5, height := 29 }
      (by decide) (by decide) (by decide) (by decide) (by decide) (by decide)
      (by decide)).2.2.2.2 (by decide)⟩

/-- A callback keeps the dismissed flag true, and keeps the animation idle when
it was idle with the flag true. -/
theorem handle_keeps_dismissed (ops : RectOps) (env : Env) (ev : Event)
    (t : BrowserToolbarGtk) (h : t.upgrade_reminder_canceled_ = true) :
    (handle ops env ev t).upgrade_reminder_canceled_ = true ∧
    (t.upgrade_reminder_animation_ = ThrobAnimation.idle →
      (handle ops env ev t).upgrade_reminder_animation_ = ThrobAnimation.idle) := by
  obtain ⟨anim, canceled, r, d, sh, hp, nt⟩ := t
  simp only at h
  subst h
  cases ev with
  | ActiveWindowChanged =>
    simp [handle, ActiveWindowChanged, MaybeShowUpgradeReminder, ThrobAnimation.Reset]
  | Observe type details =>
    cases type with
    | PREF_CHANGED =>
      simp only [handle, Observe, NotifyPrefChanged, SetUpDragForHomeButton]
      split_ifs <;> simp
    | BROWSER_THEME_CHANGED =>
      simp only [handle, Observe, UpdateRoundedness, ActAsRoundedWindow,
        StopActingAsRoundedWindow]
      split_ifs <;> simp
    | UPGRADE_RECOMMENDED =>
      simp [handle, Observe, MaybeShowUpgradeReminder, ThrobAnimation.Reset]
    | other code => simp [handle, Observe]
  | AnimationEnded => simp [handle]
  | AnimationProgressed => simp [handle]
  | AnimationCanceled => simp [handle]
  | OnAppMenuShow =>
    cases anim <;>
      simp [handle, OnAppMenuShow, MaybeShowUpgradeReminder, ThrobAnimation.Reset,
        ThrobAnimation.is_animating]
  | OnAppMenuImageExpose allocation => simp [handle]
  | OnAlignmentExpose allocation e_area =>
    simp only [handle, OnAlignmentExpose, UpdateRoundedness, ActAsRoundedWindow,
      StopActingAsRoundedWindow]
    split_ifs <;> simp
  | OnDragDataReceived info url_is_valid url_spec =>
    simp only [handle, OnDragDataReceived]
    split_ifs <;> simp

/-- A callback keeps the property that a dismissed toolbar has an idle
animation. -/
theorem handle_keeps_dismissed_idle (ops : RectOps) (env : Env) (ev : Event)
    (t : BrowserToolbarGtk)
    (hinv : t.upgrade_reminder_canceled_ = true →
      t.upgrade_reminder_animation_ = ThrobAnimation.idle)
    (h : (handle ops env ev t).upgrade_reminder_canceled_ = true) :
    (handle ops env ev t).upgrade_reminder_animation_ = ThrobAnimation.idle := by
  cases hc : t.upgrade_reminder_canceled_ with
  | true => exact (handle_keeps_dismissed ops env ev t hc).2 (hinv hc)
  | false =>
    obtain ⟨anim, canceled, r, d, sh, hp, nt⟩ := t
    simp only at hc
    subst hc
    revert h
    cases ev with
    | ActiveWindowChanged =>
      simp [handle, ActiveWindowChanged, MaybeShowUpgradeReminder]
      split_ifs <;> simp
    | Observe type details =>
      cases type with
      | PREF_CHANGED =>
        simp only [handle, Observe, NotifyPrefChanged, SetUpDragForHomeButton]
        split_ifs <;> simp
      | BROWSER_THEME_CHANGED =>
        simp only [handle, Observe, UpdateRoundedness, ActAsRoundedWindow,
          StopActingAsRoundedWindow]
        split_ifs <;> simp
      | UPGRADE_RECOMMENDED =>
        simp [handle, Observe, MaybeShowUpgradeReminder]
        split_ifs <;> simp
      | other code => simp [handle, Observe]
    | AnimationEnded => simp [handle]
    | AnimationProgressed => simp [handle]
    | AnimationCanceled => simp [handle]
    | OnAppMenuShow =>
      cases anim <;>
        simp [handle, OnAppMenuShow, MaybeShowUpgradeReminder, ThrobAnimation.Reset,
          ThrobAnimation.is_animating]
    | OnAppMenuImageExpose allocation => simp [handle]
    | OnAlignmentExpose allocation e_area =>
      simp only [handle, OnAlignmentExpose, UpdateRoundedness, ActAsRoundedWindow,
        StopActingAsRoundedWindow]
      split_ifs <;> simp
    | OnDragDataReceived info url_is_valid url_spec =>
      simp only [handle, OnDragDataReceived]
      split_ifs <;> simp

/-- A sequence of callbacks keeps the dismissed flag true. -/
theorem run_keeps_dismissed (ops : RectOps) (evs : List (Env × Event)) :
    ∀ t : BrowserToolbarGtk, t.upgrade_reminder_canceled_ = true →
      (run ops evs t).upgrade_reminder_canceled_ = true := by
  induction evs with
  | nil => intro t h; exact h
  | cons e rest ih =>
    intro t h
    obtain ⟨env, ev⟩ := e
    exact ih _ (handle_keeps_dismissed ops env ev t h).1

/-- A sequence of callbacks keeps the property that a dismissed toolbar has an
idle animation. -/
theorem run_keeps_dismissed_idle (ops : RectOps) (evs : List (Env × Event)) :
    ∀ t : BrowserToolbarGtk,
      (t.upgrade_reminder_canceled_ = true →
        t.upgrade_reminder_animation_ = ThrobAnimation.idle) →
      (run ops evs t).upgrade_reminder_canceled_ = true →
      (run ops evs t).upgrade_reminder_animation_ = ThrobAnimation.idle := by
  induction evs with
  | nil => intro t hinv h; exact hinv h
  | cons e rest ih =>
    intro t hinv h
    obtain ⟨env, ev⟩ := e
    exact ih _ (handle_keeps_dismissed_idle ops env ev t hinv) h

/-- C14: the dismissed flag is false after construction; no callback of the
toolbar turns it from true back to false; and in every state reached from the
constructor in which the flag is true, and in every state reached from there by
any further callbacks, the flag is true and the animation is idle, so the throb
is never started again. -/
theorem C14_dismissed_flag_monotone (ops : RectOps) (env0 : Env)
    (show_home_button : Bool) (home_page : String) (home_page_is_new_tab_page : Bool)
    (before after : List (Env × Event)) :
    (BrowserToolbarGtk.BrowserToolbarGtk env0 show_home_button home_page
      home_page_is_new_tab_page).upgrade_reminder_canceled_ = false ∧
    (∀ (env : Env) (ev : Event) (t : BrowserToolbarGtk),
      t.upgrade_reminder_canceled_ = true →
      (handle ops env ev t).upgrade_reminder_canceled_ = true) ∧
    ((run ops before (BrowserToolbarGtk.BrowserToolbarGtk env0 show_home_button
        home_page home_page_is_new_tab_page)).upgrade_reminder_canceled_ = true →
      (run ops after (run ops before (BrowserToolbarGtk.BrowserToolbarGtk env0
        show_home_button home_page home_page_is_new_tab_page))).upgrade_reminder_canceled_
        = true ∧
      (run ops after (run ops before (BrowserToolbarGtk.BrowserToolbarGtk env0
        show_home_button home_page home_page_is_new_tab_page))).upgrade_reminder_animation_
        = ThrobAnimation.idle ∧
      (run ops after (run ops before (BrowserToolbarGtk.BrowserToolbarGtk env0
        show_home_button home_page
        home_page_is_new_tab_page))).upgrade_reminder_animation_.is_animating = false) := by
  have hctor : (BrowserToolbarGtk.BrowserToolbarGtk env0 show_home_button home_page
      home_page_is_new_tab_page).upgrade_reminder_canceled_ = false := by
    simp only [BrowserToolbarGtk.BrowserToolbarGtk, MaybeShowUpgradeReminder]
    split_ifs <;> rfl
  refine ⟨hctor, fun env ev t h => (handle_keeps_dismissed ops env ev t h).1, ?_⟩
  intro hb
  have hinv0 : (BrowserToolbarGtk.BrowserToolbarGtk env0 show_home_button home_page
      home_page_is_new_tab_page).upgrade_reminder_canceled_ = true →
      (BrowserToolbarGtk.BrowserToolbarGtk env0 show_home_button home_page
        home_page_is_new_tab_page).upgrade_reminder_animation_ = ThrobAnimation.idle := by
    intro h
    rw [hctor] at h
    exact absurd h (by decide)
  have hidle_b := run_keeps_dismissed_idle ops before _ hinv0 hb
  have hflag := run_keeps_dismissed ops after _ hb
  have hidle := run_keeps_dismissed_idle ops after _ (fun _ => hidle_b) hflag
  exact ⟨hflag, hidle, by rw [hidle]; rfl⟩

/-- Witness of C14: the throb starts at construction, the app menu is shown, and
then the window regains focus and an upgrade notification arrives, with an
update available throughout; the flag stays true and the animation idle. -/
theorem C14_dismissed_flag_monotone_witness :
    (BrowserToolbarGtk.BrowserToolbarGtk sampleEnv true "" true).upgrade_reminder_animation_
      = ThrobAnimation.throbbing (-1) ∧
    (run sampleRectOps [(sampleEnv, Event.OnAppMenuShow)]
      (BrowserToolbarGtk.BrowserToolbarGtk sampleEnv true "" true)).upgrade_reminder_canceled_
      = true ∧
    (run sampleRectOps
      [(sampleEnv, Event.ActiveWindowChanged),
       (sampleEnv, Event.Observe NotificationType.UPGRADE_RECOMMENDED none)]
      (run sampleRectOps [(sampleEnv, Event.OnAppMenuShow)]
        (BrowserToolbarGtk.BrowserToolbarGtk sampleEnv true ""
          true))).upgrade_reminder_animation_ = ThrobAnimation.idle :=
  ⟨by decide, by decide,
   ((C14_dismissed_flag_monotone sampleRectOps sampleEnv true "" true
      [(sampleEnv, Event.OnAppMenuShow)]
      [(sampleEnv, Event.ActiveWindowChanged),
       (sampleEnv, Event.Observe NotificationType.UPGRADE_RECOMMENDED none)]).2.2
      (by decide)).2.1⟩

end ToolbarGtk
